import Mathlib

/-! Cache plugin of the search proxy (`pkg/search/proxy/framework/plugins/cache/cache.go`).

A shallow embedding of the `Cache` plugin and of its resource accessor `rester`.

* Go interfaces consumed by the plugin (`store.Store`, `meta.RESTMapper`) are records of
  functions; the plugin is quantified over all of them.
* A Go result pair `(value, error)` produced by the plugin itself (`Connect`) or by the
  `Store` is kept as a pair of options, so that "a value and no error" and "an error and
  no value" are statements about the pair and not facts of a type.
* The two `RESTMapper` lookups follow the interface contract of apimachinery (the value is
  meaningful exactly when the error is nil) and return `Except`.
* `handlers.ListResource` and `handlers.GetResource` belong to the apiserver library; a
  handler is the record of which of the two was called and with which arguments.
-/

namespace CachePlugin

/-! ## Values of the Go runtime and of apimachinery -/

/-- Go `error` value (non-nil): identified by its message. -/
structure GoError where
  msg : String
deriving DecidableEq, Repr

/-- Go `context.Context`, seen through `ctx.Err()`: `none` while the context is live,
`some e` once it has been cancelled or its deadline has passed. -/
structure Context where
  err : Option GoError
deriving DecidableEq, Repr

/-- Whether `ctx.Err()` is non-nil. -/
def Context.cancelled (ctx : Context) : Bool :=
  ctx.err.isSome

/-- Go `time.Duration`: a signed count of nanoseconds. -/
abbrev Duration := Int

/-- Value of `schema.GroupResource`. -/
structure GroupResource where
  Group : String
  Resource : String
deriving DecidableEq, Repr

/-- Value of `schema.GroupVersion`. -/
structure GroupVersion where
  Group : String
  Version : String
deriving DecidableEq, Repr

/-- Value of `schema.GroupKind`. -/
structure GroupKind where
  Group : String
  Kind : String
deriving DecidableEq, Repr

/-- Value of `schema.GroupVersionResource`. -/
structure GroupVersionResource where
  Group : String
  Version : String
  Resource : String
deriving DecidableEq, Repr

/-- Value of `schema.GroupVersionKind`. -/
structure GroupVersionKind where
  Group : String
  Version : String
  Kind : String
deriving DecidableEq, Repr

/-- Method `GroupVersionResource.GroupResource()`. -/
def GroupVersionResource.GroupResource (gvr : GroupVersionResource) : GroupResource :=
  { Group := gvr.Group, Resource := gvr.Resource }

/-- Method `GroupVersionKind.GroupKind()`. -/
def GroupVersionKind.GroupKind (gvk : GroupVersionKind) : GroupKind :=
  { Group := gvk.Group, Kind := gvk.Kind }

/-- Value of `request.RequestInfo` of the apiserver library. -/
structure RequestInfo where
  IsResourceRequest : Bool
  Path : String
  Verb : String
  APIPrefix : String
  APIGroup : String
  APIVersion : String
  Namespace : String
  Resource : String
  Subresource : String
  Name : String
  Parts : List String
deriving DecidableEq, Repr

/-- Constant `meta.RESTScopeNameNamespace`. -/
def RESTScopeNameNamespace : String := "namespace"

/-- Constant `meta.RESTScopeNameRoot`. -/
def RESTScopeNameRoot : String := "root"

/-- Value of the interface `meta.RESTScope`, seen through its method `Name()`. -/
structure RESTScope where
  Name : String
deriving DecidableEq, Repr

/-- Value of `meta.RESTMapping`. -/
structure RESTMapping where
  Resource : GroupVersionResource
  GroupVersionKind : GroupVersionKind
  Scope : RESTScope
deriving DecidableEq, Repr

/-- The two methods of `meta.RESTMapper` that the plugin calls. Neither takes a context.
`RESTMapping` is variadic in its versions. -/
structure RESTMapper where
  KindFor : GroupVersionResource → Except GoError GroupVersionKind
  RESTMapping : GroupKind → List String → Except GoError RESTMapping

/-- Constant `metav1.SchemeGroupVersion`. -/
def SchemeGroupVersion : GroupVersion :=
  { Group := "meta.k8s.io", Version := "v1" }

/-! ## Types of this repository declared outside `cache.go` -/

/-- Modelled from the spec: the declaration of `framework.ProxyRequest` is not among the
sources; the request description carries the `RequestInfo` and the resolved
group-version-resource, the two fields `cache.go` reads. -/
structure ProxyRequest where
  RequestInfo : RequestInfo
  GroupVersionResource : GroupVersionResource
deriving DecidableEq, Repr

/-- Modelled from the spec: the declaration of the interface `store.Store` is not among the
sources; it answers `HasResource(gvr)` and serves `Get(ctx, gvr, name, opts)`,
`List(ctx, gvr, opts)` and `Watch(ctx, gvr, opts)`, each returning a Go pair
`(result, error)`. `Obj` stands for `runtime.Object`, `Wat` for `watch.Interface`,
`GetOpts` for `*metav1.GetOptions` and `ListOpts` for `*metainternalversion.ListOptions`. -/
structure Store (Obj Wat GetOpts ListOpts : Type) where
  HasResource : GroupVersionResource → Bool
  Get : Context → GroupVersionResource → String → GetOpts → Option Obj × Option GoError
  List : Context → GroupVersionResource → ListOpts → Option Obj × Option GoError
  Watch : Context → GroupVersionResource → ListOpts → Option Wat × Option GoError

/-- Modelled from the spec: the declaration of `pluginruntime.PluginDependency` is not among
the sources; `New` reads its fields `Store`, `RestMapper` and `MinRequestTimeout`. -/
structure PluginDependency (Obj Wat GetOpts ListOpts : Type) where
  Store : Store Obj Wat GetOpts ListOpts
  RestMapper : RESTMapper
  MinRequestTimeout : Duration

/-! ## Serializer and table convertor -/

/-- The negotiated serializer sets named in `cache.go`. -/
inductive NegotiatedSerializer where
  | codecsWithoutConversion
  | unstructuredNegotiatedSerializer
deriving DecidableEq, Repr

/-- The list `SupportedMediaTypes()` of a library serializer set, kept as the set it was
asked of. -/
structure SerializerInfos where
  source : NegotiatedSerializer
deriving DecidableEq, Repr

/-- Method `SupportedMediaTypes()` of the library serializer sets. -/
def NegotiatedSerializer.SupportedMediaTypes (s : NegotiatedSerializer) : SerializerInfos :=
  { source := s }

/-- Type `customSerializer`. -/
structure customSerializer where
  NegotiatedSerializer : NegotiatedSerializer
  supportedMediaTypes : SerializerInfos
deriving DecidableEq, Repr

/-- Method `(*customSerializer).SupportedMediaTypes`. -/
def customSerializer.SupportedMediaTypes (u : customSerializer) : SerializerInfos :=
  u.supportedMediaTypes

/-- Variable `cacheSerializer`. -/
def cacheSerializer : customSerializer :=
  { NegotiatedSerializer := NegotiatedSerializer.codecsWithoutConversion
    supportedMediaTypes :=
      NegotiatedSerializer.unstructuredNegotiatedSerializer.SupportedMediaTypes }

/-- The object convertor `cacheScheme`, a package variable declared outside `cache.go`. -/
inductive ObjectConvertor where
  | cacheScheme
deriving DecidableEq, Repr

/-- Result of `printers.NewTableGenerator().With(...)`: the handler sets added. -/
structure TableGenerator where
  handlers : List String
deriving DecidableEq, Repr

/-- Result of `printerstorage.NewTableConvertor(defaultTableConvertor, tableGenerator)`, with
the default convertor `rest.NewDefaultTableConvertor(groupResource)` kept as its argument. -/
structure TableConvertor where
  defaultTableConvertor : GroupResource
  tableGenerator : TableGenerator
deriving DecidableEq, Repr

/-- Call `printerstorage.NewTableConvertor(rest.NewDefaultTableConvertor(gr),
printers.NewTableGenerator().With(printerslifted.AddCoreV1Handlers))`. -/
def NewTableConvertor (gr : GroupResource) : TableConvertor :=
  { defaultTableConvertor := gr, tableGenerator := { handlers := ["AddCoreV1Handlers"] } }

/-! ## The resource accessor -/

/-- Type `rester`. -/
structure rester (Obj Wat GetOpts ListOpts : Type) where
  store : Store Obj Wat GetOpts ListOpts
  gvr : GroupVersionResource
  tableConvertor : TableConvertor

/-- Method `(*rester).Get`. -/
def rester.Get {Obj Wat GetOpts ListOpts : Type} (r : rester Obj Wat GetOpts ListOpts)
    (ctx : Context) (name : String) (options : GetOpts) : Option Obj × Option GoError :=
  r.store.Get ctx r.gvr name options

/-- Method `(*rester).Watch`. -/
def rester.Watch {Obj Wat GetOpts ListOpts : Type} (r : rester Obj Wat GetOpts ListOpts)
    (ctx : Context) (options : ListOpts) : Option Wat × Option GoError :=
  r.store.Watch ctx r.gvr options

/-- Method `(*rester).List`. -/
def rester.List {Obj Wat GetOpts ListOpts : Type} (r : rester Obj Wat GetOpts ListOpts)
    (ctx : Context) (options : ListOpts) : Option Obj × Option GoError :=
  r.store.List ctx r.gvr options

/-! ## Request scope and handlers -/

/-- Result of `meta.NewAccessor()`. -/
inductive MetadataAccessor where
  | NewAccessor
deriving DecidableEq, Repr

/-- Value of `handlers.ContextBasedNaming`. -/
structure ContextBasedNaming where
  Namer : MetadataAccessor
  ClusterScoped : Bool
deriving DecidableEq, Repr

/-- Value of `handlers.RequestScope`, with the fields `Connect` sets. -/
structure RequestScope where
  Kind : GroupVersionKind
  Resource : GroupVersionResource
  Namer : ContextBasedNaming
  Serializer : customSerializer
  Convertor : ObjectConvertor
  Subresource : String
  MetaGroupVersion : GroupVersion
  TableConvertor : TableConvertor
deriving DecidableEq, Repr

/-- The `http.Handler` values `Connect` builds: the library call made and its arguments,
`handlers.ListResource(r, rw, scope, forceWatch, minRequestTimeout)` or
`handlers.GetResource(r, scope)`. -/
inductive Handler (Obj Wat GetOpts ListOpts : Type) where
  | ListResource (r : rester Obj Wat GetOpts ListOpts) (rw : rester Obj Wat GetOpts ListOpts)
      (scope : RequestScope) (forceWatch : Bool) (minRequestTimeout : Duration)
  | GetResource (r : rester Obj Wat GetOpts ListOpts) (scope : RequestScope)

/-- The request scope a handler was built with. -/
def Handler.scope {Obj Wat GetOpts ListOpts : Type} :
    Handler Obj Wat GetOpts ListOpts → RequestScope
  | Handler.ListResource _ _ scope _ _ => scope
  | Handler.GetResource _ scope => scope

/-- The accessors a handler was built with: lister and watcher, or getter. -/
def Handler.resters {Obj Wat GetOpts ListOpts : Type} :
    Handler Obj Wat GetOpts ListOpts → List (rester Obj Wat GetOpts ListOpts)
  | Handler.ListResource r rw _ _ _ => [r, rw]
  | Handler.GetResource r _ => [r]

/-! ## The plugin -/

/-- Constant `order`. -/
def order : Int := 1000

/-- Type `Cache`. -/
structure Cache (Obj Wat GetOpts ListOpts : Type) where
  store : Store Obj Wat GetOpts ListOpts
  restMapper : RESTMapper
  minRequestTimeout : Duration

/-- Function `New`. -/
def New {Obj Wat GetOpts ListOpts : Type} (dep : PluginDependency Obj Wat GetOpts ListOpts) :
    Option (Cache Obj Wat GetOpts ListOpts) × Option GoError :=
  (some { store := dep.Store
          restMapper := dep.RestMapper
          minRequestTimeout := dep.MinRequestTimeout }, none)

/-- Method `(*Cache).Order`. -/
def Cache.Order {Obj Wat GetOpts ListOpts : Type} (_c : Cache Obj Wat GetOpts ListOpts) : Int :=
  order

/-- Method `(*Cache).SupportRequest`. -/
def Cache.SupportRequest {Obj Wat GetOpts ListOpts : Type} (c : Cache Obj Wat GetOpts ListOpts)
    (request : ProxyRequest) : Bool :=
  let requestInfo := request.RequestInfo
  requestInfo.IsResourceRequest &&
    c.store.HasResource request.GroupVersionResource &&
    requestInfo.Subresource == "" &&
    (requestInfo.Verb == "get" ||
      requestInfo.Verb == "list" ||
      requestInfo.Verb == "watch")

/-- Method `(*Cache).Connect`. The context parameter is the blank identifier in the source. -/
def Cache.Connect {Obj Wat GetOpts ListOpts : Type} (c : Cache Obj Wat GetOpts ListOpts)
    (_ : Context) (request : ProxyRequest) :
    Option (Handler Obj Wat GetOpts ListOpts) × Option GoError :=
  let requestInfo := request.RequestInfo
  let r : rester Obj Wat GetOpts ListOpts :=
    { store := c.store
      gvr := request.GroupVersionResource
      tableConvertor := NewTableConvertor request.GroupVersionResource.GroupResource }
  match c.restMapper.KindFor request.GroupVersionResource with
  | Except.error err => (none, some err)
  | Except.ok gvk =>
    match c.restMapper.RESTMapping gvk.GroupKind [gvk.Version] with
    | Except.error err => (none, some err)
    | Except.ok mapping =>
      let scope : RequestScope :=
        { Kind := gvk
          Resource := request.GroupVersionResource
          Namer :=
            { Namer := MetadataAccessor.NewAccessor
              ClusterScoped := mapping.Scope.Name == RESTScopeNameRoot }
          Serializer := cacheSerializer
          Convertor := ObjectConvertor.cacheScheme
          Subresource := requestInfo.Subresource
          MetaGroupVersion := SchemeGroupVersion
          TableConvertor := r.tableConvertor }
      let h : Handler Obj Wat GetOpts ListOpts :=
        if requestInfo.Verb == "watch" || requestInfo.Name == "" then
          Handler.ListResource r r scope false c.minRequestTimeout
        else
          Handler.GetResource r scope
      (some h, none)

/-! ## The parts of the result of `Connect`, named for the statements below -/

/-- The accessor `Connect` builds for a request. -/
def connectRester {Obj Wat GetOpts ListOpts : Type} (c : Cache Obj Wat GetOpts ListOpts)
    (request : ProxyRequest) : rester Obj Wat GetOpts ListOpts :=
  { store := c.store
    gvr := request.GroupVersionResource
    tableConvertor := NewTableConvertor request.GroupVersionResource.GroupResource }

/-- The request scope `Connect` builds from a resolved kind and mapping. -/
def connectScope (request : ProxyRequest) (k : GroupVersionKind) (m : RESTMapping) :
    RequestScope :=
  { Kind := k
    Resource := request.GroupVersionResource
    Namer :=
      { Namer := MetadataAccessor.NewAccessor
        ClusterScoped := m.Scope.Name == RESTScopeNameRoot }
    Serializer := cacheSerializer
    Convertor := ObjectConvertor.cacheScheme
    Subresource := request.RequestInfo.Subresource
    MetaGroupVersion := SchemeGroupVersion
    TableConvertor := NewTableConvertor request.GroupVersionResource.GroupResource }

/-! ## Fixtures: concrete stores, mappers, plugins and requests -/

/-- The resource type `apps/v1, deployments`. -/
def deploymentsGVR : GroupVersionResource :=
  { Group := "apps", Version := "v1", Resource := "deployments" }

/-- The resource type `v1, pods` of the core group. -/
def podsGVR : GroupVersionResource :=
  { Group := "", Version := "v1", Resource := "pods" }

/-- The resource type `v1, nodes` of the core group. -/
def nodesGVR : GroupVersionResource :=
  { Group := "", Version := "v1", Resource := "nodes" }

/-- A store that caches every resource type and answers each read with a description of the
call it received. -/
def echoStore : Store String String String String :=
  { HasResource := fun _ => true
    Get := fun _ gvr name opts =>
      (some (String.intercalate "/" ["get", gvr.Group, gvr.Version, gvr.Resource, name, opts]),
        none)
    List := fun _ gvr opts =>
      (some (String.intercalate "/" ["list", gvr.Group, gvr.Version, gvr.Resource, opts]), none)
    Watch := fun _ gvr opts =>
      (some (String.intercalate "/" ["watch", gvr.Group, gvr.Version, gvr.Resource, opts]),
        none) }

/-- A store that caches nothing and fails every read with a not-found error. -/
def emptyStore : Store String String String String :=
  { HasResource := fun _ => false
    Get := fun _ _ _ _ => (none, some { msg := "not found" })
    List := fun _ _ _ => (none, some { msg := "not found" })
    Watch := fun _ _ _ => (none, some { msg := "not found" }) }

/-- A mapper that knows deployments, pods (namespaced) and nodes (cluster-scoped). -/
def basicMapper : RESTMapper :=
  { KindFor := fun gvr =>
      if gvr.Resource = "deployments" then
        Except.ok { Group := gvr.Group, Version := gvr.Version, Kind := "Deployment" }
      else if gvr.Resource = "pods" then
        Except.ok { Group := gvr.Group, Version := gvr.Version, Kind := "Pod" }
      else if gvr.Resource = "nodes" then
        Except.ok { Group := gvr.Group, Version := gvr.Version, Kind := "Node" }
      else Except.error { msg := "no matches for resource" }
    RESTMapping := fun gk versions =>
      let version := versions.headD ""
      if gk.Kind = "Deployment" then
        Except.ok { Resource := { Group := gk.Group, Version := version, Resource := "deployments" }
                    GroupVersionKind := { Group := gk.Group, Version := version, Kind := gk.Kind }
                    Scope := { Name := RESTScopeNameNamespace } }
      else if gk.Kind = "Pod" then
        Except.ok { Resource := { Group := gk.Group, Version := version, Resource := "pods" }
                    GroupVersionKind := { Group := gk.Group, Version := version, Kind := gk.Kind }
                    Scope := { Name := RESTScopeNameNamespace } }
      else if gk.Kind = "Node" then
        Except.ok { Resource := { Group := gk.Group, Version := version, Resource := "nodes" }
                    GroupVersionKind := { Group := gk.Group, Version := version, Kind := gk.Kind }
                    Scope := { Name := RESTScopeNameRoot } }
      else Except.error { msg := "no matches for kind" } }

/-- A mapper to which every resource type is unknown. -/
def unknownKindMapper : RESTMapper :=
  { KindFor := fun _ => Except.error { msg := "no matches for resource" }
    RESTMapping := fun _ _ => Except.error { msg := "no matches for kind" } }

/-- A mapper that resolves every kind and has no mapping for any. -/
def unmappedKindMapper : RESTMapper :=
  { KindFor := fun gvr => Except.ok { Group := gvr.Group, Version := gvr.Version, Kind := "Thing" }
    RESTMapping := fun _ _ => Except.error { msg := "no matches for kind" } }

/-- A plugin over `echoStore` and `basicMapper` with a minimum request timeout of 1800 s. -/
def echoCache : Cache String String String String :=
  { store := echoStore, restMapper := basicMapper, minRequestTimeout := 1800000000000 }

/-- A plugin whose store caches nothing. -/
def emptyCache : Cache String String String String :=
  { store := emptyStore, restMapper := basicMapper, minRequestTimeout := 1800000000000 }

/-- A plugin whose store caches every type and whose mapper knows none. -/
def unknownKindCache : Cache String String String String :=
  { store := echoStore, restMapper := unknownKindMapper, minRequestTimeout := 1800000000000 }

/-- A plugin whose mapper resolves kinds and fails on every mapping. -/
def unmappedKindCache : Cache String String String String :=
  { store := echoStore, restMapper := unmappedKindMapper, minRequestTimeout := 1800000000000 }

/-- A resource request with the given verb, resource type, name and subresource. -/
def mkRequest (verb : String) (gvr : GroupVersionResource) (name subresource : String) :
    ProxyRequest :=
  { RequestInfo :=
      { IsResourceRequest := true
        Path := ""
        Verb := verb
        APIPrefix := "apis"
        APIGroup := gvr.Group
        APIVersion := gvr.Version
        Namespace := "default"
        Resource := gvr.Resource
        Subresource := subresource
        Name := name
        Parts := [gvr.Resource] }
    GroupVersionResource := gvr }

/-- A request that is not a resource request although its verb is `get`, its subresource is
empty and it carries the resource type of deployments. -/
def nonResourceRequest : ProxyRequest :=
  { RequestInfo :=
      { IsResourceRequest := false
        Path := "/apis/apps/v1"
        Verb := "get"
        APIPrefix := "apis"
        APIGroup := "apps"
        APIVersion := "v1"
        Namespace := ""
        Resource := ""
        Subresource := ""
        Name := ""
        Parts := [] }
    GroupVersionResource := deploymentsGVR }

/-- A live context. -/
def background : Context := { err := none }

/-- A context that has already been cancelled. -/
def cancelledContext : Context := { err := some { msg := "context canceled" } }

end CachePlugin

namespace CachePlugin

/-! ## Helper lemmas -/

/-- The boolean expression of `SupportRequest`, read as a proposition. -/
theorem SupportRequest_eq_true_iff {Obj Wat GetOpts ListOpts : Type}
    (c : Cache Obj Wat GetOpts ListOpts) (request : ProxyRequest) :
    c.SupportRequest request = true ↔
      (request.RequestInfo.IsResourceRequest = true ∧
        c.store.HasResource request.GroupVersionResource = true ∧
        request.RequestInfo.Subresource = "" ∧
        (request.RequestInfo.Verb = "get" ∨ request.RequestInfo.Verb = "list" ∨
          request.RequestInfo.Verb = "watch")) := by
  simp only [Cache.SupportRequest, Bool.and_eq_true, Bool.or_eq_true, beq_iff_eq]
  tauto

/-- The result of `Connect` when `KindFor` fails. -/
theorem Connect_of_KindFor_error {Obj Wat GetOpts ListOpts : Type}
    (c : Cache Obj Wat GetOpts ListOpts) (ctx : Context) (request : ProxyRequest) (e : GoError)
    (hk : c.restMapper.KindFor request.GroupVersionResource = Except.error e) :
    c.Connect ctx request = (none, some e) := by
  simp only [Cache.Connect, hk]

/-- The result of `Connect` when `KindFor` succeeds and `RESTMapping` fails. -/
theorem Connect_of_RESTMapping_error {Obj Wat GetOpts ListOpts : Type}
    (c : Cache Obj Wat GetOpts ListOpts) (ctx : Context) (request : ProxyRequest)
    (k : GroupVersionKind) (e : GoError)
    (hk : c.restMapper.KindFor request.GroupVersionResource = Except.ok k)
    (hm : c.restMapper.RESTMapping k.GroupKind [k.Version] = Except.error e) :
    c.Connect ctx request = (none, some e) := by
  simp only [Cache.Connect, hk, hm]

/-- The result of `Connect` when both lookups succeed. -/
theorem Connect_of_ok {Obj Wat GetOpts ListOpts : Type}
    (c : Cache Obj Wat GetOpts ListOpts) (ctx : Context) (request : ProxyRequest)
    (k : GroupVersionKind) (m : RESTMapping)
    (hk : c.restMapper.KindFor request.GroupVersionResource = Except.ok k)
    (hm : c.restMapper.RESTMapping k.GroupKind [k.Version] = Except.ok m) :
    c.Connect ctx request =
      (some (if request.RequestInfo.Verb = "watch" ∨ request.RequestInfo.Name = "" then
          Handler.ListResource (connectRester c request) (connectRester c request)
            (connectScope request k m) false c.minRequestTimeout
        else Handler.GetResource (connectRester c request) (connectScope request k m)),
        none) := by
  simp only [Cache.Connect, hk, hm, connectRester, connectScope, Bool.or_eq_true, beq_iff_eq]

/-- A successful `Connect` comes from two successful lookups. -/
theorem Connect_some_inv {Obj Wat GetOpts ListOpts : Type}
    (c : Cache Obj Wat GetOpts ListOpts) (ctx : Context) (request : ProxyRequest)
    (h : Handler Obj Wat GetOpts ListOpts) (e : Option GoError)
    (hc : c.Connect ctx request = (some h, e)) :
    ∃ k m, c.restMapper.KindFor request.GroupVersionResource = Except.ok k ∧
      c.restMapper.RESTMapping k.GroupKind [k.Version] = Except.ok m := by
  cases hk : c.restMapper.KindFor request.GroupVersionResource with
  | error err =>
    rw [Connect_of_KindFor_error c ctx request err hk] at hc
    simp at hc
  | ok k =>
    cases hm : c.restMapper.RESTMapping k.GroupKind [k.Version] with
    | error err =>
      rw [Connect_of_RESTMapping_error c ctx request k err hk hm] at hc
      simp at hc
    | ok m => exact ⟨k, m, rfl, hm⟩

/-- The scope of the handler of a successful `Connect`. -/
theorem Connect_handler_scope {Obj Wat GetOpts ListOpts : Type}
    (c : Cache Obj Wat GetOpts ListOpts) (ctx : Context) (request : ProxyRequest)
    (h : Handler Obj Wat GetOpts ListOpts) (k : GroupVersionKind) (m : RESTMapping)
    (hc : c.Connect ctx request = (some h, none))
    (hk : c.restMapper.KindFor request.GroupVersionResource = Except.ok k)
    (hm : c.restMapper.RESTMapping k.GroupKind [k.Version] = Except.ok m) :
    h.scope = connectScope request k m := by
  rw [Connect_of_ok c ctx request k m hk hm] at hc
  have hh := Option.some.inj (congrArg Prod.fst hc)
  subst hh
  split <;> rfl

/-- The accessors of the handler of a successful `Connect`. -/
theorem Connect_handler_resters {Obj Wat GetOpts ListOpts : Type}
    (c : Cache Obj Wat GetOpts ListOpts) (ctx : Context) (request : ProxyRequest)
    (h : Handler Obj Wat GetOpts ListOpts)
    (hc : c.Connect ctx request = (some h, none)) :
    h.resters ≠ [] ∧ ∀ r ∈ h.resters, r = connectRester c request := by
  obtain ⟨k, m, hk, hm⟩ := Connect_some_inv c ctx request h none hc
  rw [Connect_of_ok c ctx request k m hk hm] at hc
  have hh := Option.some.inj (congrArg Prod.fst hc)
  subst hh
  split <;> simp [Handler.resters]

/-! ## The support predicate -/

/-- C1: `SupportRequest` returns true if and only if the request is a resource request, the
store has the request's group-version-resource, the subresource is empty and the verb is
`get`, `list` or `watch`; in particular it returns false whenever `HasResource` is false and
whenever the subresource is non-empty. -/
theorem C1_SupportRequest_iff {Obj Wat GetOpts ListOpts : Type}
    (c : Cache Obj Wat GetOpts ListOpts) (request : ProxyRequest) :
    (c.SupportRequest request = true ↔
      (request.RequestInfo.IsResourceRequest = true ∧
        c.store.HasResource request.GroupVersionResource = true ∧
        request.RequestInfo.Subresource = "" ∧
        (request.RequestInfo.Verb = "get" ∨ request.RequestInfo.Verb = "list" ∨
          request.RequestInfo.Verb = "watch"))) ∧
    (c.store.HasResource request.GroupVersionResource = false →
      c.SupportRequest request = false) ∧
    (request.RequestInfo.Subresource ≠ "" → c.SupportRequest request = false) := by
  refine ⟨SupportRequest_eq_true_iff c request, ?_, ?_⟩
  · intro hf
    rw [← Bool.not_eq_true, SupportRequest_eq_true_iff]
    rintro ⟨-, ht, -⟩
    rw [hf] at ht
    exact Bool.false_ne_true ht
  · intro hs
    rw [← Bool.not_eq_true, SupportRequest_eq_true_iff]
    rintro ⟨-, -, he, -⟩
    exact hs he

/-- C1 at concrete requests: a `get` of a cached deployment is supported; the same request
is refused by a store without the resource type, and refused with the subresource
`status`. -/
theorem C1_SupportRequest_iff_witness :
    echoCache.SupportRequest (mkRequest "get" deploymentsGVR "web" "") = true ∧
      emptyCache.SupportRequest (mkRequest "get" deploymentsGVR "web" "") = false ∧
      echoCache.SupportRequest (mkRequest "get" deploymentsGVR "web" "status") = false :=
  ⟨(C1_SupportRequest_iff echoCache (mkRequest "get" deploymentsGVR "web" "")).1.mpr
      (by decide),
    (C1_SupportRequest_iff emptyCache (mkRequest "get" deploymentsGVR "web" "")).2.1
      (by decide),
    (C1_SupportRequest_iff echoCache (mkRequest "get" deploymentsGVR "web" "status")).2.2
      (by decide)⟩

/-- C2 as stated fails: `nonResourceRequest` has the verb `get`, an empty subresource and a
resource type the store reports as cached, and `SupportRequest` returns false for it. -/
theorem C2_counterexample :
    nonResourceRequest.RequestInfo.Verb = "get" ∧
      nonResourceRequest.RequestInfo.Subresource = "" ∧
      echoCache.store.HasResource nonResourceRequest.GroupVersionResource = true ∧
      echoCache.SupportRequest nonResourceRequest = false := by
  decide

/-- C2 amended: for every resource request (`IsResourceRequest` true) whose verb is `get`,
`list` or `watch`, whose subresource is empty and whose resource type the store has,
`SupportRequest` returns true. -/
theorem C2_SupportRequest_read {Obj Wat GetOpts ListOpts : Type}
    (c : Cache Obj Wat GetOpts ListOpts) (request : ProxyRequest)
    (hres : request.RequestInfo.IsResourceRequest = true)
    (hverb : request.RequestInfo.Verb = "get" ∨ request.RequestInfo.Verb = "list" ∨
      request.RequestInfo.Verb = "watch")
    (hsub : request.RequestInfo.Subresource = "")
    (hhas : c.store.HasResource request.GroupVersionResource = true) :
    c.SupportRequest request = true :=
  (SupportRequest_eq_true_iff c request).mpr ⟨hres, hhas, hsub, hverb⟩

/-- C2 amended, at a `list` of pods. -/
theorem C2_SupportRequest_read_witness :
    echoCache.SupportRequest (mkRequest "list" podsGVR "" "") = true :=
  C2_SupportRequest_read echoCache (mkRequest "list" podsGVR "" "") (by decide) (by decide)
    (by decide) (by decide)

/-- C3: for every request whose verb is none of `get`, `list`, `watch`, `SupportRequest`
returns false, whatever the store and the other fields of the request. -/
theorem C3_SupportRequest_reads_only {Obj Wat GetOpts ListOpts : Type}
    (c : Cache Obj Wat GetOpts ListOpts) (request : ProxyRequest)
    (hverb : ¬ (request.RequestInfo.Verb = "get" ∨ request.RequestInfo.Verb = "list" ∨
      request.RequestInfo.Verb = "watch")) :
    c.SupportRequest request = false := by
  rw [← Bool.not_eq_true, SupportRequest_eq_true_iff]
  rintro ⟨-, -, -, hv⟩
  exact hverb hv

/-- C3 at a `delete` of a cached deployment. -/
theorem C3_SupportRequest_reads_only_witness :
    echoCache.store.HasResource deploymentsGVR = true ∧
      echoCache.SupportRequest (mkRequest "delete" deploymentsGVR "web" "") = false :=
  ⟨by decide,
    C3_SupportRequest_reads_only echoCache (mkRequest "delete" deploymentsGVR "web" "")
      (by decide)⟩

/-! ## Connect -/

/-- C4: `Connect` returns either a handler and no error or an error and no handler; when
`KindFor` fails it returns exactly that error and no handler, whatever the store reports;
when `KindFor` succeeds with kind `k` and `RESTMapping` of `k` fails it returns exactly that
error and no handler; when both succeed it returns a handler and no error. -/
theorem C4_Connect_handler_or_error {Obj Wat GetOpts ListOpts : Type}
    (c : Cache Obj Wat GetOpts ListOpts) (ctx : Context) (request : ProxyRequest) :
    ((∃ h, c.Connect ctx request = (some h, none)) ∨
      (∃ e, c.Connect ctx request = (none, some e))) ∧
    (∀ e, c.restMapper.KindFor request.GroupVersionResource = Except.error e →
      c.Connect ctx request = (none, some e)) ∧
    (∀ k e, c.restMapper.KindFor request.GroupVersionResource = Except.ok k →
      c.restMapper.RESTMapping k.GroupKind [k.Version] = Except.error e →
      c.Connect ctx request = (none, some e)) ∧
    (∀ k m, c.restMapper.KindFor request.GroupVersionResource = Except.ok k →
      c.restMapper.RESTMapping k.GroupKind [k.Version] = Except.ok m →
      ∃ h, c.Connect ctx request = (some h, none)) := by
  refine ⟨?_, fun e hk => Connect_of_KindFor_error c ctx request e hk,
    fun k e hk hm => Connect_of_RESTMapping_error c ctx request k e hk hm,
    fun k m hk hm => ⟨_, Connect_of_ok c ctx request k m hk hm⟩⟩
  cases hk : c.restMapper.KindFor request.GroupVersionResource with
  | error err => exact Or.inr ⟨err, Connect_of_KindFor_error c ctx request err hk⟩
  | ok k =>
    cases hm : c.restMapper.RESTMapping k.GroupKind [k.Version] with
    | error err => exact Or.inr ⟨err, Connect_of_RESTMapping_error c ctx request k err hk hm⟩
    | ok m => exact Or.inl ⟨_, Connect_of_ok c ctx request k m hk hm⟩

/-- C4 at concrete plugins: a mapper that does not know a resource type the store caches, a
mapper without a mapping for the resolved kind, and a mapper that resolves both. -/
theorem C4_Connect_handler_or_error_witness :
    (unknownKindCache.store.HasResource deploymentsGVR = true ∧
      unknownKindCache.Connect background (mkRequest "get" deploymentsGVR "web" "") =
        (none, some { msg := "no matches for resource" })) ∧
    unmappedKindCache.Connect background (mkRequest "get" deploymentsGVR "web" "") =
      (none, some { msg := "no matches for kind" }) ∧
    (∃ h, echoCache.Connect background (mkRequest "get" deploymentsGVR "web" "") =
      (some h, none)) :=
  ⟨⟨by decide,
      (C4_Connect_handler_or_error unknownKindCache background
        (mkRequest "get" deploymentsGVR "web" "")).2.1 _ rfl⟩,
    (C4_Connect_handler_or_error unmappedKindCache background
      (mkRequest "get" deploymentsGVR "web" "")).2.2.1
      { Group := "apps", Version := "v1", Kind := "Thing" } _ rfl rfl,
    (C4_Connect_handler_or_error echoCache background
      (mkRequest "get" deploymentsGVR "web" "")).2.2.2
      { Group := "apps", Version := "v1", Kind := "Deployment" }
      { Resource := deploymentsGVR
        GroupVersionKind := { Group := "apps", Version := "v1", Kind := "Deployment" }
        Scope := { Name := RESTScopeNameNamespace } } rfl rfl⟩

/-- C5: when both mapper lookups succeed, `Connect` builds the list/watch handler
`handlers.ListResource`, with the plugin's minimum request timeout, when the verb is `watch`
or the request's name is empty, and the get handler `handlers.GetResource` in every other
case. -/
theorem C5_Connect_handler_shape {Obj Wat GetOpts ListOpts : Type}
    (c : Cache Obj Wat GetOpts ListOpts) (ctx : Context) (request : ProxyRequest)
    (k : GroupVersionKind) (m : RESTMapping)
    (hk : c.restMapper.KindFor request.GroupVersionResource = Except.ok k)
    (hm : c.restMapper.RESTMapping k.GroupKind [k.Version] = Except.ok m) :
    ((request.RequestInfo.Verb = "watch" ∨ request.RequestInfo.Name = "") →
      ∃ r rw scope, c.Connect ctx request =
        (some (Handler.ListResource r rw scope false c.minRequestTimeout), none)) ∧
    (¬ (request.RequestInfo.Verb = "watch" ∨ request.RequestInfo.Name = "") →
      ∃ r scope, c.Connect ctx request = (some (Handler.GetResource r scope), none)) := by
  rw [Connect_of_ok c ctx request k m hk hm]
  constructor
  · intro hcond
    rw [if_pos hcond]
    exact ⟨_, _, _, rfl⟩
  · intro hcond
    rw [if_neg hcond]
    exact ⟨_, _, rfl⟩

/-- C5 at a `watch` of pods, served by the list/watch handler with the timeout of
`echoCache`, and at a `get` of the deployment `web`, served by the get handler. -/
theorem C5_Connect_handler_shape_witness :
    (∃ r rw scope, echoCache.Connect background (mkRequest "watch" podsGVR "" "") =
      (some (Handler.ListResource r rw scope false 1800000000000), none)) ∧
    (∃ r scope, echoCache.Connect background (mkRequest "get" deploymentsGVR "web" "") =
      (some (Handler.GetResource r scope), none)) :=
  ⟨(C5_Connect_handler_shape echoCache background (mkRequest "watch" podsGVR "" "")
      { Group := "", Version := "v1", Kind := "Pod" }
      { Resource := podsGVR
        GroupVersionKind := { Group := "", Version := "v1", Kind := "Pod" }
        Scope := { Name := RESTScopeNameNamespace } } rfl rfl).1 (by decide),
    (C5_Connect_handler_shape echoCache background (mkRequest "get" deploymentsGVR "web" "")
      { Group := "apps", Version := "v1", Kind := "Deployment" }
      { Resource := deploymentsGVR
        GroupVersionKind := { Group := "apps", Version := "v1", Kind := "Deployment" }
        Scope := { Name := RESTScopeNameNamespace } } rfl rfl).2 (by decide)⟩

/-! ## The resource accessor -/

/-- C6: the accessor passes through to the store: `Get(ctx, name, options)` is
`Store.Get(ctx, gvr, name, options)`, `List(ctx, options)` is `Store.List(ctx, gvr, options)`
and `Watch(ctx, options)` is `Store.Watch(ctx, gvr, options)` for the accessor's own `gvr`,
result and error included. -/
theorem C6_rester_pass_through {Obj Wat GetOpts ListOpts : Type}
    (r : rester Obj Wat GetOpts ListOpts) (ctx : Context) (name : String) (options : GetOpts)
    (listOptions : ListOpts) :
    r.Get ctx name options = r.store.Get ctx r.gvr name options ∧
      r.List ctx listOptions = r.store.List ctx r.gvr listOptions ∧
      r.Watch ctx listOptions = r.store.Watch ctx r.gvr listOptions :=
  ⟨rfl, rfl, rfl⟩

/-- C6 at an accessor for deployments: over `echoStore` the call received by the store is
the call made, and over `emptyStore` the store's error comes back as it is. -/
theorem C6_rester_pass_through_witness :
    rester.Get { store := echoStore, gvr := deploymentsGVR,
                 tableConvertor := NewTableConvertor deploymentsGVR.GroupResource }
        background "web" "resourceVersion=0" =
      (some "get/apps/v1/deployments/web/resourceVersion=0", none) ∧
    rester.Get { store := emptyStore, gvr := deploymentsGVR,
                 tableConvertor := NewTableConvertor deploymentsGVR.GroupResource }
        background "web" "resourceVersion=0" =
      (none, some { msg := "not found" }) :=
  ⟨(C6_rester_pass_through _ background "web" "resourceVersion=0" "").1.trans (by decide),
    (C6_rester_pass_through _ background "web" "resourceVersion=0" "").1.trans (by decide)⟩

/-- C7: when `Connect` succeeds, every accessor wired into the handler holds the plugin's
store and the request's group-version-resource, the scope's `Resource` is that
group-version-resource and its `Kind` is the kind `KindFor` returned; a `Get` for a name
through such an accessor is `Store.Get` of the plugin's store with the request's
group-version-resource and that name. -/
theorem C7_Connect_binds_request_gvr {Obj Wat GetOpts ListOpts : Type}
    (c : Cache Obj Wat GetOpts ListOpts) (ctx : Context) (request : ProxyRequest)
    (h : Handler Obj Wat GetOpts ListOpts)
    (hc : c.Connect ctx request = (some h, none)) :
    h.resters ≠ [] ∧
    (∀ r ∈ h.resters, r.store = c.store ∧ r.gvr = request.GroupVersionResource) ∧
    h.scope.Resource = request.GroupVersionResource ∧
    c.restMapper.KindFor request.GroupVersionResource = Except.ok h.scope.Kind ∧
    (∀ r ∈ h.resters, ∀ (ctx2 : Context) (name : String) (options : GetOpts),
      r.Get ctx2 name options = c.store.Get ctx2 request.GroupVersionResource name options) := by
  obtain ⟨k, m, hk, hm⟩ := Connect_some_inv c ctx request h none hc
  have hscope := Connect_handler_scope c ctx request h k m hc hk hm
  obtain ⟨hne, hall⟩ := Connect_handler_resters c ctx request h hc
  refine ⟨hne, fun r hr => ?_, ?_, ?_, fun r hr ctx2 name options => ?_⟩
  · rw [hall r hr]
    exact ⟨rfl, rfl⟩
  · rw [hscope]
    rfl
  · rw [hscope, hk]
    rfl
  · rw [hall r hr]
    rfl

/-- C7 at a `get` of the deployment `web`: the getter of the handler calls
`echoStore.Get` with `apps/v1, deployments` and `web`. -/
theorem C7_Connect_binds_request_gvr_witness :
    echoCache.Connect background (mkRequest "get" deploymentsGVR "web" "") =
        (some (Handler.GetResource (connectRester echoCache
            (mkRequest "get" deploymentsGVR "web" ""))
          (connectScope (mkRequest "get" deploymentsGVR "web" "")
            { Group := "apps", Version := "v1", Kind := "Deployment" }
            { Resource := deploymentsGVR
              GroupVersionKind := { Group := "apps", Version := "v1", Kind := "Deployment" }
              Scope := { Name := RESTScopeNameNamespace } })), none) ∧
      (connectRester echoCache (mkRequest "get" deploymentsGVR "web" "")).Get background
          "web" "" =
        echoStore.Get background deploymentsGVR "web" "" :=
  ⟨rfl,
    (C7_Connect_binds_request_gvr echoCache background
      (mkRequest "get" deploymentsGVR "web" "") _ rfl).2.2.2.2
      (connectRester echoCache (mkRequest "get" deploymentsGVR "web" ""))
      (List.mem_singleton.mpr rfl) background "web" ""⟩

/-! ## The context -/

/-- C8 as stated fails: called with a context that is already cancelled, `Connect` still
returns a handler and no error. -/
theorem C8_counterexample :
    cancelledContext.cancelled = true ∧
      ∃ h, echoCache.Connect cancelledContext (mkRequest "get" deploymentsGVR "web" "") =
        (some h, none) :=
  ⟨by decide, _, rfl⟩

/-- C8 amended: `Connect` does not consult its context: it returns the same result under
every context, cancelled or not, and it returns an error and no handler exactly when
`KindFor` fails or `RESTMapping` of the resolved kind fails. -/
theorem C8_Connect_ignores_context {Obj Wat GetOpts ListOpts : Type}
    (c : Cache Obj Wat GetOpts ListOpts) (ctx : Context) (request : ProxyRequest) :
    (∀ ctx2 : Context, c.Connect ctx request = c.Connect ctx2 request) ∧
    ((∃ e, c.Connect ctx request = (none, some e)) ↔
      ((∃ e, c.restMapper.KindFor request.GroupVersionResource = Except.error e) ∨
        ∃ k e, c.restMapper.KindFor request.GroupVersionResource = Except.ok k ∧
          c.restMapper.RESTMapping k.GroupKind [k.Version] = Except.error e)) := by
  refine ⟨fun _ => rfl, ?_⟩
  cases hk : c.restMapper.KindFor request.GroupVersionResource with
  | error err =>
    rw [Connect_of_KindFor_error c ctx request err hk]
    simp
  | ok k =>
    cases hm : c.restMapper.RESTMapping k.GroupKind [k.Version] with
    | error err =>
      rw [Connect_of_RESTMapping_error c ctx request k err hk hm]
      simp [hm]
    | ok m =>
      rw [Connect_of_ok c ctx request k m hk hm]
      simp [hm]

/-! ## The request scope -/

/-- C9: for every request that `SupportRequest` accepts and for which `Connect` succeeds,
the `Subresource` of the request scope `Connect` assembles is the empty string. -/
theorem C9_scope_subresource_empty {Obj Wat GetOpts ListOpts : Type}
    (c : Cache Obj Wat GetOpts ListOpts) (ctx : Context) (request : ProxyRequest)
    (h : Handler Obj Wat GetOpts ListOpts)
    (hs : c.SupportRequest request = true)
    (hc : c.Connect ctx request = (some h, none)) :
    h.scope.Subresource = "" := by
  obtain ⟨k, m, hk, hm⟩ := Connect_some_inv c ctx request h none hc
  rw [Connect_handler_scope c ctx request h k m hc hk hm]
  exact ((SupportRequest_eq_true_iff c request).mp hs).2.2.1

/-- C9 at a `list` of pods. -/
theorem C9_scope_subresource_empty_witness :
    echoCache.SupportRequest (mkRequest "list" podsGVR "" "") = true ∧
      ∃ h, echoCache.Connect background (mkRequest "list" podsGVR "" "") = (some h, none) ∧
        h.scope.Subresource = "" :=
  ⟨by decide, _, rfl,
    C9_scope_subresource_empty echoCache background (mkRequest "list" podsGVR "" "") _
      (by decide) rfl⟩

/-- C10: when `Connect` succeeds, the namer of the request scope is cluster-scoped if and
only if the scope name of the mapping `RESTMapping` returned for the kind `KindFor` returned
is the root scope name; for every other scope name, the namespace scope name included, it is
namespace-scoped. -/
theorem C10_namer_follows_scope {Obj Wat GetOpts ListOpts : Type}
    (c : Cache Obj Wat GetOpts ListOpts) (ctx : Context) (request : ProxyRequest)
    (h : Handler Obj Wat GetOpts ListOpts) (k : GroupVersionKind) (m : RESTMapping)
    (hc : c.Connect ctx request = (some h, none))
    (hk : c.restMapper.KindFor request.GroupVersionResource = Except.ok k)
    (hm : c.restMapper.RESTMapping k.GroupKind [k.Version] = Except.ok m) :
    (h.scope.Namer.ClusterScoped = true ↔ m.Scope.Name = RESTScopeNameRoot) ∧
    (m.Scope.Name ≠ RESTScopeNameRoot → h.scope.Namer.ClusterScoped = false) ∧
    (m.Scope.Name = RESTScopeNameNamespace → h.scope.Namer.ClusterScoped = false) := by
  rw [Connect_handler_scope c ctx request h k m hc hk hm]
  have hiff : (connectScope request k m).Namer.ClusterScoped = true ↔
      m.Scope.Name = RESTScopeNameRoot := by
    simp [connectScope]
  refine ⟨hiff, fun hne => ?_, fun hns => ?_⟩
  · rw [← Bool.not_eq_true, hiff]
    exact hne
  · rw [← Bool.not_eq_true, hiff, hns]
    decide

/-- C10 at a `get` of the node `n1` (root scope, cluster-scoped namer) and at a `get` of
the pod `p1` (namespace scope, namespace-scoped namer). -/
theorem C10_namer_follows_scope_witness :
    (∃ h, echoCache.Connect background (mkRequest "get" nodesGVR "n1" "") = (some h, none) ∧
      h.scope.Namer.ClusterScoped = true) ∧
    (∃ h, echoCache.Connect background (mkRequest "get" podsGVR "p1" "") = (some h, none) ∧
      h.scope.Namer.ClusterScoped = false) :=
  ⟨⟨_, rfl,
      (C10_namer_follows_scope echoCache background (mkRequest "get" nodesGVR "n1" "") _
        { Group := "", Version := "v1", Kind := "Node" }
        { Resource := nodesGVR
          GroupVersionKind := { Group := "", Version := "v1", Kind := "Node" }
          Scope := { Name := RESTScopeNameRoot } } rfl rfl rfl).1.mpr rfl⟩,
    ⟨_, rfl,
      (C10_namer_follows_scope echoCache background (mkRequest "get" podsGVR "p1" "") _
        { Group := "", Version := "v1", Kind := "Pod" }
        { Resource := podsGVR
          GroupVersionKind := { Group := "", Version := "v1", Kind := "Pod" }
          Scope := { Name := RESTScopeNameNamespace } } rfl rfl rfl).2.2 rfl⟩⟩

end CachePlugin
